import Mathlib

/-!
Verification of the serverless immutable transaction pipeline stack
(src/app.py, an AWS CDK application) against its natural-language
specification.

The first part embeds the stack configuration exactly as constructed in
src/app.py: the dead-letter queue and primary queue, the IAM roles and
their policy statements, the Step Functions state machine, the
EventBridge bus, archive, pipe and rule.  The second part models, from
the specification, the runtime semantics of the managed services the
stack configures (SQS delivery and dead-lettering, the pipe relay,
EventBridge pattern matching, the orchestrator execution), since that
runtime code is not part of this repository.
-/

namespace SITP

/-- Deployment environment of the stack: the only inputs that vary
between instantiations of `MyServerlessApplicationStack` (src/app.py
lines 279-281 pass `account` and `region` through `Environment`). -/
structure Env where
  account : String
  region : String
deriving DecidableEq, Repr

/-- Dead-letter configuration attached to an SQS queue, as in
`sqs.DeadLetterQueue(max_receive_count=..., queue=...)`
(src/app.py lines 55-58). The target queue is referenced by name. -/
structure DeadLetterQueueConfig where
  maxReceiveCount : Nat
  queue : String
deriving DecidableEq, Repr

/-- SQS queue configuration, as in `sqs.Queue(...)`
(src/app.py lines 43-48 and 51-60). -/
structure QueueConfig where
  queueName : String
  visibilityTimeoutSeconds : Nat
  deadLetterQueue : Option DeadLetterQueueConfig
  enforceSsl : Bool
deriving DecidableEq, Repr

/-- IAM policy effect. -/
inductive Effect where
  | ALLOW
  | DENY
deriving DecidableEq, Repr

/-- IAM policy statement, as in `iam.PolicyStatement(effect=..., actions=..., resources=...)`. -/
structure PolicyStatement where
  effect : Effect
  actions : List String
  resources : List String
deriving DecidableEq, Repr

/-- IAM role with its attached policy statements, as in `iam.Role(...)`
followed by `add_to_policy` calls. -/
structure RoleConfig where
  assumedBy : String
  roleName : String
  statements : List PolicyStatement
deriving DecidableEq, Repr

/-- EventBridge event pattern, as in `events.EventPattern(...)`:
each field is either absent (no predicate) or a set of accepted values. -/
structure EventPattern where
  source : Option (List String) := none
  detailType : Option (List String) := none
  region : Option (List String) := none
  account : Option (List String) := none
deriving DecidableEq, Repr

/-- EventBridge rule, as in `events.Rule(...)`
(src/app.py lines 261-273). Targets are referenced by name. -/
structure RuleConfig where
  ruleName : String
  eventBus : String
  eventPattern : EventPattern
  targets : List String
deriving DecidableEq, Repr

/-- EventBridge archive, as in `eventbridge_bus.archive(...)`
(src/app.py lines 218-225). -/
structure ArchiveConfig where
  archiveName : String
  eventPattern : EventPattern
  retentionDays : Nat
deriving DecidableEq, Repr

/-- Step Functions log level, as in `sfn.LogLevel`. -/
inductive LogLevel where
  | ALL
  | ERROR
  | FATAL
  | OFF
deriving DecidableEq, Repr

/-- A state of a Step Functions definition. `lambdaInvoke` is a
`tasks.LambdaInvoke` task state; `choiceState` and `parallelState`
mark branching and parallel states, which this stack never uses. -/
inductive SfnState where
  | lambdaInvoke (functionName : String)
  | choiceState
  | parallelState
deriving DecidableEq, Repr

/-- Whether a Step Functions state is a task state invoking the Task Executor. -/
def SfnState.isTaskState : SfnState → Bool
  | .lambdaInvoke _ => true
  | _ => false

/-- Step Functions state machine configuration, as in
`sfn.StateMachine(...)` (src/app.py lines 199-211). -/
structure StateMachineConfig where
  stateMachineName : String
  timeoutSeconds : Nat
  definition : List SfnState
  logDestination : String
  logLevel : LogLevel
  tracingEnabled : Bool
deriving DecidableEq, Repr

/-- EventBridge pipe configuration, as in `pipes.CfnPipe(...)`
(src/app.py lines 253-258). Source and target are referenced by name. -/
structure PipeConfig where
  name : String
  roleArn : String
  source : String
  target : String
deriving DecidableEq, Repr

/-- The resources of `MyServerlessApplicationStack` relevant to the
claims, with the field names following the local variable names in
src/app.py. -/
structure StackConfig where
  dlqueue : QueueConfig
  queue : QueueConfig
  eventbridge_pipe_role : RoleConfig
  eventbridge_pipe : PipeConfig
  eventbridge_bus_archive : ArchiveConfig
  eventbridge_rule : RuleConfig
  state_machine : StateMachineConfig
deriving DecidableEq, Repr

/-- The stack as constructed by `MyServerlessApplicationStack.__init__`
in src/app.py, translated resource by resource.  Durations are in
seconds (`Duration.seconds(300)` at lines 45 and 53;
`Duration.minutes(5)` at line 205 is 300 seconds; `Duration.days(7)`
at line 224 is the 7-day retention).  Cross-resource references (queue
ARNs, bus ARN, pipe name) are rendered as the resource names. -/
def MyServerlessApplicationStack (env : Env) : StackConfig :=
  let dlqueue : QueueConfig :=
    { queueName := "sitp-cdk-dl-queue"
      visibilityTimeoutSeconds := 300
      deadLetterQueue := none
      enforceSsl := true }
  let queue : QueueConfig :=
    { queueName := "sitp-cdk-queue"
      visibilityTimeoutSeconds := 300
      deadLetterQueue := some { maxReceiveCount := 123, queue := "sitp-cdk-dl-queue" }
      enforceSsl := true }
  let state_machine : StateMachineConfig :=
    { stateMachineName := "sitp-cdk-state-machine"
      timeoutSeconds := 5 * 60
      definition := [SfnState.lambdaInvoke "sitp-cdk-lambda"]
      logDestination := "sitp-cdk-state-machine-logs"
      logLevel := LogLevel.ALL
      tracingEnabled := true }
  let eventbridge_pipe_role : RoleConfig :=
    { assumedBy := "pipes.amazonaws.com"
      roleName := "eventbridge-sqs-to-eventbridge-role"
      statements :=
        [ { effect := Effect.ALLOW
            actions := ["sqs:ReceiveMessage", "sqs:DeleteMessage", "sqs:GetQueueAttributes"]
            resources := ["sitp-cdk-queue"] },
          { effect := Effect.ALLOW
            actions := ["events:PutEvents"]
            resources := ["sitp-cdk-bus"] } ] }
  let eventbridge_pipe : PipeConfig :=
    { name := "sitp-cdk-eventbridge-pipe"
      roleArn := "eventbridge-sqs-to-eventbridge-role"
      source := "sitp-cdk-queue"
      target := "sitp-cdk-bus" }
  { dlqueue := dlqueue
    queue := queue
    eventbridge_pipe_role := eventbridge_pipe_role
    eventbridge_pipe := eventbridge_pipe
    eventbridge_bus_archive :=
      { archiveName := "sitp-cdk-bus-archive"
        eventPattern := { account := some [env.account] }
        retentionDays := 7 }
    eventbridge_rule :=
      { ruleName := "send-to-step-functions"
        eventBus := "sitp-cdk-bus"
        eventPattern :=
          { source := some ["Pipe " ++ eventbridge_pipe.name]
            detailType := some ["Event from aws:sqs"]
            region := some [env.region]
            account := some [env.account] }
        targets := ["sitp-cdk-state-machine"] }
    state_machine := state_machine }

/-!
Runtime models.  The managed-service runtimes the stack configures are
not part of this repository, so they are modelled from the
specification and parameterised by the configuration values embedded
above.
-/

/-- Modelled from the spec: the lifecycle state of a single message in
the Durable Queue with its Dead-Letter Sink (spec sections 3 and 4.1;
the SQS runtime is not part of this repository).  `receiveCount` is the
number of unacknowledged delivery attempts so far; `inQueue` means the
message is owned by the primary queue; `inDlq` means it has been
relocated to the Dead-Letter Sink. -/
structure MsgState where
  receiveCount : Nat
  inQueue : Bool
  inDlq : Bool
deriving DecidableEq, Repr

/-- A freshly enqueued message: zero receives, owned by the primary queue. -/
def MsgState.enqueued : MsgState :=
  { receiveCount := 0, inQueue := true, inDlq := false }

/-- Modelled from the spec: one delivery attempt that is not
acknowledged before its visibility timeout expires (spec section 4.1;
the SQS runtime is not part of this repository).  The attempt
increments `receiveCount` exactly once; at the moment of re-delivery
eligibility, if `receiveCount` now exceeds `maxReceiveCount`, the
queue atomically relocates the message to the Dead-Letter Sink instead
of making it visible again. -/
def unackedDelivery (maxReceiveCount : Nat) (s : MsgState) : MsgState :=
  if s.inQueue then
    let rc := s.receiveCount + 1
    if maxReceiveCount < rc then
      { receiveCount := rc, inQueue := false, inDlq := true }
    else
      { receiveCount := rc, inQueue := true, inDlq := false }
  else s

/-- Modelled from the spec: `acknowledge` permanently deletes a message
from the primary queue (spec section 4.1). -/
def acknowledge (s : MsgState) : MsgState :=
  if s.inQueue then { s with inQueue := false } else s

/-- Modelled from the spec: state of the Relay processing one message
(spec section 4.2; the EventBridge Pipes runtime is not part of this
repository).  The Relay itself is stateless apart from the message it
is moving: `publishedEvents` counts the events it has successfully
published to the Event Bus for this message.  There is no retry
counter of its own. -/
structure RelayState where
  msg : MsgState
  publishedEvents : Nat
deriving DecidableEq, Repr

/-- The Relay state for a freshly enqueued message. -/
def RelayState.initial : RelayState :=
  { msg := MsgState.enqueued, publishedEvents := 0 }

/-- Modelled from the spec: one Relay cycle for the message (spec
section 4.2).  If the message is available in the primary queue the
Relay receives it and attempts to publish it to the Event Bus.  On
publish success it acknowledges (deletes) the message, and only then;
on publish failure it does not acknowledge, so the delivery attempt
goes unacknowledged and the Durable Queue applies its own redelivery
and dead-letter policy.  The Relay records nothing but the message
state and the published events. -/
def relayCycle (maxReceiveCount : Nat) (publishSucceeds : Bool) (s : RelayState) : RelayState :=
  if s.msg.inQueue then
    if publishSucceeds then
      { msg := acknowledge s.msg, publishedEvents := s.publishedEvents + 1 }
    else
      { msg := unackedDelivery maxReceiveCount s.msg, publishedEvents := s.publishedEvents }
  else s

/-- Modelled from the spec: the envelope of an Event on the Event Bus
(spec section 3; the EventBridge runtime is not part of this
repository). -/
structure Event where
  source : String
  detailType : String
  region : String
  account : String
  detail : String
deriving DecidableEq, Repr

/-- Modelled from the spec: a single field predicate of a MatchPattern
is satisfied iff the predicate is absent or the field value belongs to
the value set (OR within a field value set; spec section 3). -/
def fieldMatches (pred : Option (List String)) (v : String) : Bool :=
  match pred with
  | none => true
  | some vs => vs.contains v

/-- Modelled from the spec: an Event matchesPattern a MatchPattern iff every
present predicate is satisfied (logical AND across fields; spec
section 3).  The pattern type is the one the stack configuration uses. -/
def matchesPattern (e : Event) (p : EventPattern) : Bool :=
  fieldMatches p.source e.source &&
  fieldMatches p.detailType e.detailType &&
  fieldMatches p.region e.region &&
  fieldMatches p.account e.account

/-- Modelled from the spec: a Rule invokes each configured target when
the Event matchesPattern its pattern, and invokes no target otherwise; a
non-match is not an error (spec sections 3 and 4.4).  The result is
the list of invoked targets. -/
def routeEvent (r : RuleConfig) (e : Event) : List String :=
  if matchesPattern e r.eventPattern then r.targets else []

/-- Modelled from the spec: the Event Bus accepts a published Event,
evaluates the rule, and appends the Event to the Archive when it
matchesPattern the archive pattern (spec sections 3 and 4.3).  Returns the
invoked targets and the new archive contents.  The archive is only
written, never read, by this live path. -/
def publishToBus (r : RuleConfig) (a : ArchiveConfig) (archive : List Event) (e : Event) :
    List String × List Event :=
  (routeEvent r e, if matchesPattern e a.eventPattern then archive ++ [e] else archive)

/-- Status of a WorkflowExecution (spec section 4.5). -/
inductive ExecStatus where
  | CREATED
  | RUNNING
  | SUCCEEDED
  | FAILED
  | TIMED_OUT
deriving DecidableEq, Repr

/-- Whether an execution status is terminal. -/
def ExecStatus.isTerminal : ExecStatus → Bool
  | .SUCCEEDED => true
  | .FAILED => true
  | .TIMED_OUT => true
  | _ => false

/-- Modelled from the spec: the observable behaviour of the Task
Executor for one invocation: it returns after some duration with
success or a typed failure, or it never returns (spec sections 4.5 and
4.6). -/
inductive TaskBehavior where
  | returns (durationSeconds : Nat) (ok : Bool)
  | neverReturns
deriving DecidableEq, Repr

/-- Outcome of one Orchestrator execution: the terminal status, the
times at which RUNNING began and ended, and how many times the Task
Executor was invoked. -/
structure ExecOutcome where
  status : ExecStatus
  startedAt : Nat
  terminalAt : Nat
  taskInvocations : Nat
deriving DecidableEq, Repr

/-- Modelled from the spec: one Orchestrator execution (spec section
4.5; the Step Functions runtime is not part of this repository).  On
invocation the Orchestrator starts a timer bound by
`timeoutSeconds`, transitions to RUNNING at `startedAt`, and calls the
Task Executor exactly once.  If the call returns before the timer
fires the status is SUCCEEDED or FAILED at the return time; if the
timer fires first the status is TIMED_OUT at `startedAt +
timeoutSeconds` and the in-flight call is abandoned with no further
invocation. -/
def runExecution (timeoutSeconds startedAt : Nat) (task : TaskBehavior) : ExecOutcome :=
  match task with
  | .neverReturns =>
      { status := .TIMED_OUT
        startedAt := startedAt
        terminalAt := startedAt + timeoutSeconds
        taskInvocations := 1 }
  | .returns d ok =>
      if d < timeoutSeconds then
        { status := if ok then .SUCCEEDED else .FAILED
          startedAt := startedAt
          terminalAt := startedAt + d
          taskInvocations := 1 }
      else
        { status := .TIMED_OUT
          startedAt := startedAt
          terminalAt := startedAt + timeoutSeconds
          taskInvocations := 1 }

/-- The structured log record every execution must emit (spec section 4.5). -/
structure LogRecord where
  executionId : Nat
  status : ExecStatus
  durationSeconds : Nat
  traceId : Nat
deriving DecidableEq, Repr

/-- A trace span covering an interval of an execution. -/
structure TraceSpan where
  traceId : Nat
  startAt : Nat
  endAt : Nat
deriving DecidableEq, Repr

/-- Whether a log level records an execution with the given terminal
status: ALL records every execution, ERROR only failing ones, FATAL
none of the normal outcomes, OFF nothing. -/
def LogLevel.records : LogLevel → ExecStatus → Bool
  | .ALL, _ => true
  | .ERROR, .FAILED => true
  | .ERROR, .TIMED_OUT => true
  | .ERROR, _ => false
  | .FATAL, _ => false
  | .OFF, _ => false

/-- Modelled from the spec: the log record a state machine with the
given configuration emits for an execution outcome, if its log level
records that outcome (spec section 4.5; the logging runtime is not
part of this repository). -/
def emittedLog (cfg : StateMachineConfig) (executionId traceId : Nat) (o : ExecOutcome) :
    Option LogRecord :=
  if cfg.logLevel.records o.status then
    some { executionId := executionId
           status := o.status
           durationSeconds := o.terminalAt - o.startedAt
           traceId := traceId }
  else none

/-- Modelled from the spec: the trace span a state machine with the
given configuration emits for an execution outcome, covering the full
RUNNING interval, if tracing is enabled (spec section 4.5). -/
def emittedSpan (cfg : StateMachineConfig) (traceId : Nat) (o : ExecOutcome) :
    Option TraceSpan :=
  if cfg.tracingEnabled then
    some { traceId := traceId, startAt := o.startedAt, endAt := o.terminalAt }
  else none

/-- Number of Task Executor invocations a Step Functions definition
performs on its single linear path: one per task state. -/
def taskStatesOf (steps : List SfnState) : Nat :=
  (steps.filter SfnState.isTaskState).length

/-- Whether an IAM role allows an action on a resource: some ALLOW
statement of the role lists both, and no statement denies (default
deny otherwise). -/
def roleAllows (r : RoleConfig) (action resource : String) : Bool :=
  r.statements.any (fun s =>
    s.effect == Effect.ALLOW && s.actions.contains action && s.resources.contains resource)
  && !(r.statements.any (fun s =>
    s.effect == Effect.DENY && s.actions.contains action && s.resources.contains resource))

/-- Whether a queue operation over the given transport is permitted:
with `enforceSsl` set, operations over an unencrypted transport are
denied (src/app.py lines 47 and 59 set `enforce_ssl=True`, which
attaches a policy denying non-TLS access). -/
def queueOpPermitted (q : QueueConfig) (secureTransport : Bool) : Bool :=
  secureTransport || !q.enforceSsl

/-- State of a never-acknowledged message after `n` unacknowledged
delivery attempts under dead-letter bound `m`. -/
def msgAfter (m n : Nat) : MsgState :=
  (unackedDelivery m)^[n] MsgState.enqueued

/-- Whether the dead-letter threshold of the primary queue varies with
the deployment environment, the only configuration input of the stack. -/
def dlThresholdVaries : Prop :=
  ∃ e₁ e₂ : Env,
    (MyServerlessApplicationStack e₁).queue.deadLetterQueue ≠
      (MyServerlessApplicationStack e₂).queue.deadLetterQueue

/-- Whether the orchestrator timeout varies with the deployment
environment, the only configuration input of the stack. -/
def orchestratorTimeoutVaries : Prop :=
  ∃ e₁ e₂ : Env,
    (MyServerlessApplicationStack e₁).state_machine.timeoutSeconds ≠
      (MyServerlessApplicationStack e₂).state_machine.timeoutSeconds

/-!
Helper lemmas.
-/

/-- While at most `m` unacknowledged deliveries have happened, the
message is still in the primary queue and its receive count equals the
number of attempts. -/
theorem msgAfter_le (m n : Nat) (h : n ≤ m) :
    msgAfter m n = { receiveCount := n, inQueue := true, inDlq := false } := by
  induction n with
  | zero => rfl
  | succ n ih =>
    have hn : n ≤ m := Nat.le_of_succ_le h
    rw [msgAfter, Function.iterate_succ_apply']
    rw [show (unackedDelivery m)^[n] MsgState.enqueued = msgAfter m n from rfl, ih hn]
    simp only [unackedDelivery, if_pos rfl]
    rw [if_neg (by omega : ¬ m < n + 1)]
    simp

/-- Once more than `m` unacknowledged deliveries have happened, the
message has been relocated to the Dead-Letter Sink with receive count
`m + 1`. -/
theorem msgAfter_gt (m n : Nat) (h : m < n) :
    msgAfter m n = { receiveCount := m + 1, inQueue := false, inDlq := true } := by
  induction n with
  | zero => omega
  | succ n ih =>
    rw [msgAfter, Function.iterate_succ_apply']
    rw [show (unackedDelivery m)^[n] MsgState.enqueued = msgAfter m n from rfl]
    rcases Nat.lt_or_ge m n with h2 | h2
    · rw [ih h2]
      simp [unackedDelivery]
    · have hnm : m = n := by omega
      rw [msgAfter_le m n (by omega)]
      simp only [unackedDelivery, if_pos rfl]
      rw [if_pos (by omega : m < n + 1)]
      simp [hnm]

/-- One Relay cycle with a failed publish leaves the published count
unchanged and applies exactly the Durable Queue redelivery policy to
the message state. -/
theorem relayCycle_false (m : Nat) (s : RelayState) :
    relayCycle m false s =
      { msg := unackedDelivery m s.msg, publishedEvents := s.publishedEvents } := by
  rcases s with ⟨msg, k⟩
  rcases msg with ⟨rc, iq, dl⟩
  cases iq <;> simp [relayCycle, unackedDelivery]

/-- Iterating failed Relay cycles publishes nothing and drives the
message through the Durable Queue lifecycle. -/
theorem relayCycle_false_iterate (m n : Nat) :
    (relayCycle m false)^[n] RelayState.initial =
      { msg := msgAfter m n, publishedEvents := 0 } := by
  induction n with
  | zero => rfl
  | succ n ih =>
    have step : msgAfter m (n + 1) = unackedDelivery m (msgAfter m n) := by
      rw [msgAfter, msgAfter, Function.iterate_succ_apply']
    rw [Function.iterate_succ_apply', ih, relayCycle_false, step]

/-- A field predicate is satisfied iff it is absent or the field value
belongs to the value set. -/
theorem fieldMatches_iff (pred : Option (List String)) (v : String) :
    fieldMatches pred v = true ↔ ∀ vs, pred = some vs → v ∈ vs := by
  cases pred with
  | none => simp [fieldMatches]
  | some vs => simp [fieldMatches]

/-- An Event matches a MatchPattern iff every present field predicate
is satisfied. -/
theorem matchesPattern_iff (e : Event) (p : EventPattern) :
    matchesPattern e p = true ↔
      ((∀ vs, p.source = some vs → e.source ∈ vs) ∧
       (∀ vs, p.detailType = some vs → e.detailType ∈ vs) ∧
       (∀ vs, p.region = some vs → e.region ∈ vs) ∧
       (∀ vs, p.account = some vs → e.account ∈ vs)) := by
  rw [matchesPattern]
  simp only [Bool.and_eq_true, fieldMatches_iff]
  tauto

/-!
Claim theorems.
-/

/-- Claim C1: for every message in the Durable Queue that is never
acknowledged, once its receiveCount exceeds maxReceiveCount
(configured as 123 in src/app.py line 56), the message is moved to
the Dead-Letter Sink and removed from the primary queue atomically, so
that after maxReceiveCount + 1 delivery attempts it exists in the
Dead-Letter Sink and not in the Durable Queue, with no duplication and
no loss. -/
theorem C1_dead_letter_after_max_receives (env : Env) (n : Nat) :
    (MyServerlessApplicationStack env).queue.deadLetterQueue =
      some { maxReceiveCount := 123,
             queue := (MyServerlessApplicationStack env).dlqueue.queueName } ∧
    ¬ ((msgAfter 123 n).inQueue = true ∧ (msgAfter 123 n).inDlq = true) ∧
    ((msgAfter 123 n).inQueue = true ∨ (msgAfter 123 n).inDlq = true) ∧
    (123 < (msgAfter 123 n).receiveCount →
      msgAfter 123 n = { receiveCount := 124, inQueue := false, inDlq := true }) ∧
    (123 + 1 ≤ n →
      msgAfter 123 n = { receiveCount := 124, inQueue := false, inDlq := true }) ∧
    (n ≤ 123 →
      msgAfter 123 n = { receiveCount := n, inQueue := true, inDlq := false }) := by
  rcases le_or_lt n 123 with h | h
  · rw [msgAfter_le 123 n h]
    refine ⟨rfl, by simp, by simp, ?_, ?_, fun _ => rfl⟩
    · intro hrc
      exact absurd hrc (by simp; omega)
    · intro hn
      omega
  · rw [msgAfter_gt 123 n h]
    exact ⟨rfl, by simp, by simp, fun _ => rfl, fun _ => rfl, fun hn => by omega⟩

/-- Witness for C1 at the dead-letter boundary: after 124 = 123 + 1
unacknowledged delivery attempts the message is in the Dead-Letter
Sink and no longer in the primary queue. -/
theorem C1_dead_letter_after_max_receives_witness :
    msgAfter 123 124 = { receiveCount := 124, inQueue := false, inDlq := true } :=
  (C1_dead_letter_after_max_receives
      { account := "111122223333", region := "eu-west-1" } 124).2.2.2.2.1
    (by omega)

/-- Claim C2: the Relay reads from the Durable Queue and targets the
Event Bus (src/app.py lines 253-258); it acknowledges (deletes) the
source message exactly when the publish succeeds, leaves the message
unacknowledged on publish failure so the queue redelivery policy
applies, and keeps no retry bookkeeping of its own, so that repeated
publish failures dead-letter the message solely through the queue
maxReceiveCount policy with no event ever published. -/
theorem C2_relay_ack_only_after_publish (env : Env) (s : RelayState) (n : Nat) :
    (MyServerlessApplicationStack env).eventbridge_pipe.source =
      (MyServerlessApplicationStack env).queue.queueName ∧
    (MyServerlessApplicationStack env).eventbridge_pipe.target = "sitp-cdk-bus" ∧
    (s.msg.inQueue = true →
      relayCycle 123 true s =
        { msg := { s.msg with inQueue := false },
          publishedEvents := s.publishedEvents + 1 }) ∧
    (s.msg.inQueue = true →
      relayCycle 123 false s =
        { msg := unackedDelivery 123 s.msg, publishedEvents := s.publishedEvents }) ∧
    ((relayCycle 123 false)^[n] RelayState.initial =
      { msg := msgAfter 123 n, publishedEvents := 0 }) ∧
    (123 + 1 ≤ n →
      ((relayCycle 123 false)^[n] RelayState.initial).msg.inDlq = true ∧
      ((relayCycle 123 false)^[n] RelayState.initial).msg.inQueue = false ∧
      ((relayCycle 123 false)^[n] RelayState.initial).publishedEvents = 0) := by
  refine ⟨rfl, rfl, ?_, ?_, relayCycle_false_iterate 123 n, ?_⟩
  · intro hq
    simp [relayCycle, acknowledge, hq]
  · intro hq
    simp [relayCycle, hq]
  · intro hn
    rw [relayCycle_false_iterate 123 n, msgAfter_gt 123 n (by omega)]
    exact ⟨rfl, rfl, rfl⟩

/-- Witness for C2: for an in-queue message a successful publish
acknowledges it and records one published event, and 124 consecutive
publish failures leave it dead-lettered with zero events published. -/
theorem C2_relay_ack_only_after_publish_witness :
    relayCycle 123 true
        { msg := { receiveCount := 0, inQueue := true, inDlq := false },
          publishedEvents := 0 } =
      { msg := { receiveCount := 0, inQueue := false, inDlq := false },
        publishedEvents := 1 } ∧
    ((relayCycle 123 false)^[124] RelayState.initial).msg.inDlq = true ∧
    ((relayCycle 123 false)^[124] RelayState.initial).msg.inQueue = false ∧
    ((relayCycle 123 false)^[124] RelayState.initial).publishedEvents = 0 := by
  have h := C2_relay_ack_only_after_publish
    { account := "111122223333", region := "eu-west-1" }
    { msg := { receiveCount := 0, inQueue := true, inDlq := false },
      publishedEvents := 0 } 124
  exact ⟨h.2.2.1 rfl, h.2.2.2.2.2 (by omega)⟩

/-- Claim C3: the Orchestrator execution is bounded by the configured
timeout of 5 minutes (src/app.py line 205): if the Task Executor never
returns, the execution becomes TIMED_OUT no later than timeout + ε
after RUNNING began, and the in-flight call is abandoned with no
further invocation. -/
theorem C3_timeout_enforced (env : Env) (startedAt ε : Nat) :
    (MyServerlessApplicationStack env).state_machine.timeoutSeconds = 5 * 60 ∧
    (runExecution (MyServerlessApplicationStack env).state_machine.timeoutSeconds
        startedAt TaskBehavior.neverReturns).status = ExecStatus.TIMED_OUT ∧
    (runExecution (MyServerlessApplicationStack env).state_machine.timeoutSeconds
        startedAt TaskBehavior.neverReturns).terminalAt ≤
      startedAt + (MyServerlessApplicationStack env).state_machine.timeoutSeconds + ε ∧
    (runExecution (MyServerlessApplicationStack env).state_machine.timeoutSeconds
        startedAt TaskBehavior.neverReturns).taskInvocations = 1 := by
  exact ⟨rfl, rfl, by simp [runExecution], rfl⟩

/-- Claim C4: an Event matches a MatchPattern iff every present
predicate is satisfied (AND across fields, OR within a field value
set); the configured rule (src/app.py lines 261-273) keys on the
Relay identity through the source field "Pipe
sitp-cdk-eventbridge-pipe", detail-type "Event from aws:sqs" and the
stack region and account, invokes the Orchestrator state machine on a
match, and invokes no target and raises no error on a non-match. -/
theorem C4_rule_matching_and_routing (env : Env) (e : Event) (p : EventPattern) :
    (MyServerlessApplicationStack env).eventbridge_rule.eventPattern =
      { source := some ["Pipe sitp-cdk-eventbridge-pipe"]
        detailType := some ["Event from aws:sqs"]
        region := some [env.region]
        account := some [env.account] } ∧
    (MyServerlessApplicationStack env).eventbridge_rule.eventPattern.source =
      some ["Pipe " ++ (MyServerlessApplicationStack env).eventbridge_pipe.name] ∧
    (matchesPattern e p = true ↔
      ((∀ vs, p.source = some vs → e.source ∈ vs) ∧
       (∀ vs, p.detailType = some vs → e.detailType ∈ vs) ∧
       (∀ vs, p.region = some vs → e.region ∈ vs) ∧
       (∀ vs, p.account = some vs → e.account ∈ vs))) ∧
    (matchesPattern e (MyServerlessApplicationStack env).eventbridge_rule.eventPattern = true →
      routeEvent (MyServerlessApplicationStack env).eventbridge_rule e =
        [(MyServerlessApplicationStack env).state_machine.stateMachineName]) ∧
    (matchesPattern e (MyServerlessApplicationStack env).eventbridge_rule.eventPattern = false →
      routeEvent (MyServerlessApplicationStack env).eventbridge_rule e = []) := by
  refine ⟨rfl, rfl, matchesPattern_iff e p, ?_, ?_⟩
  · intro hm
    rw [routeEvent, if_pos hm]
    rfl
  · intro hm
    rw [routeEvent, if_neg (by simp [hm])]

/-- Witness for C4: with a concrete deployment environment, an Event
republished by the Relay matches the rule and is routed to the state
machine, and an Event with a different source is routed nowhere. -/
theorem C4_rule_matching_and_routing_witness :
    routeEvent (MyServerlessApplicationStack
        { account := "111122223333", region := "eu-west-1" }).eventbridge_rule
      { source := "Pipe sitp-cdk-eventbridge-pipe"
        detailType := "Event from aws:sqs"
        region := "eu-west-1"
        account := "111122223333"
        detail := "orderId A1" } = ["sitp-cdk-state-machine"] ∧
    routeEvent (MyServerlessApplicationStack
        { account := "111122223333", region := "eu-west-1" }).eventbridge_rule
      { source := "direct-submission"
        detailType := "Event from aws:sqs"
        region := "eu-west-1"
        account := "111122223333"
        detail := "orderId A1" } = [] := by
  constructor
  · exact (C4_rule_matching_and_routing
      { account := "111122223333", region := "eu-west-1" }
      { source := "Pipe sitp-cdk-eventbridge-pipe"
        detailType := "Event from aws:sqs"
        region := "eu-west-1"
        account := "111122223333"
        detail := "orderId A1" }
      { source := none }).2.2.2.1 (by decide)
  · exact (C4_rule_matching_and_routing
      { account := "111122223333", region := "eu-west-1" }
      { source := "direct-submission"
        detailType := "Event from aws:sqs"
        region := "eu-west-1"
        account := "111122223333"
        detail := "orderId A1" }
      { source := none }).2.2.2.2 (by decide)

/-- Claim C5: the workflow definition is a single Lambda-invoke step
with no branching or parallel states (src/app.py lines 194-204), every
execution performs exactly one Task Executor invocation, and its
status reaches exactly one terminal state among SUCCEEDED, FAILED and
TIMED_OUT. -/
theorem C5_single_step_terminal (env : Env) (startedAt : Nat) (task : TaskBehavior) :
    (MyServerlessApplicationStack env).state_machine.definition =
      [SfnState.lambdaInvoke "sitp-cdk-lambda"] ∧
    taskStatesOf (MyServerlessApplicationStack env).state_machine.definition = 1 ∧
    (MyServerlessApplicationStack env).state_machine.definition.all
      SfnState.isTaskState = true ∧
    (runExecution (MyServerlessApplicationStack env).state_machine.timeoutSeconds
        startedAt task).taskInvocations =
      taskStatesOf (MyServerlessApplicationStack env).state_machine.definition ∧
    (runExecution (MyServerlessApplicationStack env).state_machine.timeoutSeconds
        startedAt task).status.isTerminal = true ∧
    ((runExecution (MyServerlessApplicationStack env).state_machine.timeoutSeconds
        startedAt task).status = ExecStatus.SUCCEEDED ∨
     (runExecution (MyServerlessApplicationStack env).state_machine.timeoutSeconds
        startedAt task).status = ExecStatus.FAILED ∨
     (runExecution (MyServerlessApplicationStack env).state_machine.timeoutSeconds
        startedAt task).status = ExecStatus.TIMED_OUT) := by
  have hts : taskStatesOf (MyServerlessApplicationStack env).state_machine.definition = 1 :=
    rfl
  refine ⟨rfl, hts, rfl, ?_, ?_, ?_⟩
  · rw [hts]
    rcases task with ⟨d, ok⟩ | _
    · simp only [runExecution]
      split
      · rfl
      · rfl
    · rfl
  · rcases task with ⟨d, ok⟩ | _
    · simp only [runExecution]
      split
      · cases ok <;> rfl
      · rfl
    · rfl
  · rcases task with ⟨d, ok⟩ | _
    · simp only [runExecution]
      split
      · cases ok
        · exact Or.inr (Or.inl rfl)
        · exact Or.inl rfl
      · exact Or.inr (Or.inr rfl)
    · exact Or.inr (Or.inr rfl)

/-- Claim C6 as amended: the dead-letter threshold and the
orchestrator timeout are hard-coded constants of the stack definition
(123 receives at src/app.py line 56, 5 minutes at line 205); they do
not vary with the deployment environment, the only configuration input
of the program. -/
theorem C6_thresholds_hard_coded (env : Env) :
    (MyServerlessApplicationStack env).queue.deadLetterQueue =
      some { maxReceiveCount := 123, queue := "sitp-cdk-dl-queue" } ∧
    (MyServerlessApplicationStack env).state_machine.timeoutSeconds = 5 * 60 ∧
    ¬ dlThresholdVaries ∧
    ¬ orchestratorTimeoutVaries := by
  refine ⟨rfl, rfl, ?_, ?_⟩
  · rintro ⟨e₁, e₂, h⟩
    exact h rfl
  · rintro ⟨e₁, e₂, h⟩
    exact h rfl

/-- Counterexample to Claim C6 as stated: neither the dead-letter
threshold nor the orchestrator timeout is a configurable parameter of
the program; both are invariant under the deployment environment, the
only input the stack construction takes, and are fixed at 123 receives
and 300 seconds. -/
theorem C6_counterexample_not_configurable :
    ¬ dlThresholdVaries ∧
    ¬ orchestratorTimeoutVaries ∧
    (MyServerlessApplicationStack { account := "111122223333", region := "eu-west-1" }
        ).queue.deadLetterQueue =
      some { maxReceiveCount := 123, queue := "sitp-cdk-dl-queue" } ∧
    (MyServerlessApplicationStack { account := "999988887777", region := "us-east-2" }
        ).queue.deadLetterQueue =
      some { maxReceiveCount := 123, queue := "sitp-cdk-dl-queue" } ∧
    (MyServerlessApplicationStack { account := "111122223333", region := "eu-west-1" }
        ).state_machine.timeoutSeconds = 300 ∧
    (MyServerlessApplicationStack { account := "999988887777", region := "us-east-2" }
        ).state_machine.timeoutSeconds = 300 := by
  refine ⟨?_, ?_, rfl, rfl, rfl, rfl⟩
  · rintro ⟨e₁, e₂, h⟩
    exact h rfl
  · rintro ⟨e₁, e₂, h⟩
    exact h rfl

/-- Claim C7: every Event accepted by the Event Bus whose account
equals the stack account is appended to the Archive; the archive
predicate is itself a MatchPattern evaluated by the same matching
engine (src/app.py lines 218-225); entries are retained for 7 days;
and the live routing never reads the archive contents. -/
theorem C7_archive_behaviour (env : Env) (e : Event) (archive archive2 : List Event) :
    (MyServerlessApplicationStack env).eventbridge_bus_archive.eventPattern =
      { account := some [env.account] } ∧
    (MyServerlessApplicationStack env).eventbridge_bus_archive.retentionDays = 7 ∧
    (matchesPattern e
        (MyServerlessApplicationStack env).eventbridge_bus_archive.eventPattern = true ↔
      e.account = env.account) ∧
    (e.account = env.account →
      (publishToBus (MyServerlessApplicationStack env).eventbridge_rule
          (MyServerlessApplicationStack env).eventbridge_bus_archive archive e).2 =
        archive ++ [e]) ∧
    (e.account ≠ env.account →
      (publishToBus (MyServerlessApplicationStack env).eventbridge_rule
          (MyServerlessApplicationStack env).eventbridge_bus_archive archive e).2 =
        archive) ∧
    ((publishToBus (MyServerlessApplicationStack env).eventbridge_rule
        (MyServerlessApplicationStack env).eventbridge_bus_archive archive e).1 =
      (publishToBus (MyServerlessApplicationStack env).eventbridge_rule
        (MyServerlessApplicationStack env).eventbridge_bus_archive archive2 e).1) := by
  have hiff : matchesPattern e
      (MyServerlessApplicationStack env).eventbridge_bus_archive.eventPattern = true ↔
      e.account = env.account := by
    simp [matchesPattern, fieldMatches, MyServerlessApplicationStack]
  refine ⟨rfl, rfl, hiff, ?_, ?_, rfl⟩
  · intro ha
    rw [publishToBus]
    rw [if_pos (hiff.mpr ha)]
  · intro ha
    rw [publishToBus]
    rw [if_neg (by simp [hiff, ha])]

/-- Witness for C7: with a concrete environment, an Event of the stack
account is appended to the archive and an Event of a foreign account
is not. -/
theorem C7_archive_behaviour_witness :
    (publishToBus (MyServerlessApplicationStack
          { account := "111122223333", region := "eu-west-1" }).eventbridge_rule
        (MyServerlessApplicationStack
          { account := "111122223333", region := "eu-west-1" }).eventbridge_bus_archive
        []
        { source := "Pipe sitp-cdk-eventbridge-pipe"
          detailType := "Event from aws:sqs"
          region := "eu-west-1"
          account := "111122223333"
          detail := "orderId A1" }).2 =
      [{ source := "Pipe sitp-cdk-eventbridge-pipe"
         detailType := "Event from aws:sqs"
         region := "eu-west-1"
         account := "111122223333"
         detail := "orderId A1" }] ∧
    (publishToBus (MyServerlessApplicationStack
          { account := "111122223333", region := "eu-west-1" }).eventbridge_rule
        (MyServerlessApplicationStack
          { account := "111122223333", region := "eu-west-1" }).eventbridge_bus_archive
        []
        { source := "Pipe sitp-cdk-eventbridge-pipe"
          detailType := "Event from aws:sqs"
          region := "eu-west-1"
          account := "999988887777"
          detail := "orderId A1" }).2 = [] := by
  constructor
  · exact (C7_archive_behaviour
      { account := "111122223333", region := "eu-west-1" }
      { source := "Pipe sitp-cdk-eventbridge-pipe"
        detailType := "Event from aws:sqs"
        region := "eu-west-1"
        account := "111122223333"
        detail := "orderId A1" } [] []).2.2.2.1 (by decide)
  · exact (C7_archive_behaviour
      { account := "111122223333", region := "eu-west-1" }
      { source := "Pipe sitp-cdk-eventbridge-pipe"
        detailType := "Event from aws:sqs"
        region := "eu-west-1"
        account := "999988887777"
        detail := "orderId A1" } [] []).2.2.2.2.1 (by decide)

/-- Claim C8: the state machine logs at the all-events level to its
log group and has tracing enabled (src/app.py lines 190-211), so every
execution, whatever its terminal outcome, emits a structured log
record carrying the execution id, status, duration and trace id, and a
trace span covering the full RUNNING interval. -/
theorem C8_observability_every_execution
    (env : Env) (executionId traceId startedAt : Nat) (task : TaskBehavior) :
    (MyServerlessApplicationStack env).state_machine.logLevel = LogLevel.ALL ∧
    (MyServerlessApplicationStack env).state_machine.tracingEnabled = true ∧
    (MyServerlessApplicationStack env).state_machine.logDestination =
      "sitp-cdk-state-machine-logs" ∧
    (emittedLog (MyServerlessApplicationStack env).state_machine executionId traceId
        (runExecution (MyServerlessApplicationStack env).state_machine.timeoutSeconds
          startedAt task) =
      some { executionId := executionId
             status := (runExecution
               (MyServerlessApplicationStack env).state_machine.timeoutSeconds
               startedAt task).status
             durationSeconds := (runExecution
                 (MyServerlessApplicationStack env).state_machine.timeoutSeconds
                 startedAt task).terminalAt -
               (runExecution
                 (MyServerlessApplicationStack env).state_machine.timeoutSeconds
                 startedAt task).startedAt
             traceId := traceId }) ∧
    (emittedSpan (MyServerlessApplicationStack env).state_machine traceId
        (runExecution (MyServerlessApplicationStack env).state_machine.timeoutSeconds
          startedAt task) =
      some { traceId := traceId
             startAt := (runExecution
               (MyServerlessApplicationStack env).state_machine.timeoutSeconds
               startedAt task).startedAt
             endAt := (runExecution
               (MyServerlessApplicationStack env).state_machine.timeoutSeconds
               startedAt task).terminalAt }) := by
  refine ⟨rfl, rfl, rfl, ?_, ?_⟩
  · rw [emittedLog]
    rw [if_pos (by rfl)]
  · rw [emittedSpan]
    rw [if_pos (by rfl)]

/-- Claim C9: both the primary queue and the dead-letter queue are
created with enforce_ssl set (src/app.py lines 47 and 59), so queue
operations over an unencrypted transport are denied and only encrypted
transport is permitted. -/
theorem C9_ssl_enforced_on_both_queues (env : Env) :
    (MyServerlessApplicationStack env).queue.enforceSsl = true ∧
    (MyServerlessApplicationStack env).dlqueue.enforceSsl = true ∧
    queueOpPermitted (MyServerlessApplicationStack env).queue false = false ∧
    queueOpPermitted (MyServerlessApplicationStack env).dlqueue false = false ∧
    queueOpPermitted (MyServerlessApplicationStack env).queue true = true ∧
    queueOpPermitted (MyServerlessApplicationStack env).dlqueue true = true :=
  ⟨rfl, rfl, rfl, rfl, rfl, rfl⟩

/-- Claim C10: the pipe role carries exactly two allow statements,
sqs:ReceiveMessage, sqs:DeleteMessage and sqs:GetQueueAttributes on
the Durable Queue and events:PutEvents on the Event Bus (src/app.py
lines 235-251); it grants sqs:SendMessage on no resource, so the
Relay cannot write back into the Durable Queue, and it grants nothing
beyond the listed action-resource pairs. -/
theorem C10_pipe_role_least_privilege (env : Env) (action resource : String) :
    (MyServerlessApplicationStack env).eventbridge_pipe_role.statements =
      [ { effect := Effect.ALLOW
          actions := ["sqs:ReceiveMessage", "sqs:DeleteMessage", "sqs:GetQueueAttributes"]
          resources := [(MyServerlessApplicationStack env).queue.queueName] },
        { effect := Effect.ALLOW
          actions := ["events:PutEvents"]
          resources := ["sitp-cdk-bus"] } ] ∧
    roleAllows (MyServerlessApplicationStack env).eventbridge_pipe_role
      "sqs:ReceiveMessage" "sitp-cdk-queue" = true ∧
    roleAllows (MyServerlessApplicationStack env).eventbridge_pipe_role
      "sqs:DeleteMessage" "sitp-cdk-queue" = true ∧
    roleAllows (MyServerlessApplicationStack env).eventbridge_pipe_role
      "sqs:GetQueueAttributes" "sitp-cdk-queue" = true ∧
    roleAllows (MyServerlessApplicationStack env).eventbridge_pipe_role
      "events:PutEvents" "sitp-cdk-bus" = true ∧
    roleAllows (MyServerlessApplicationStack env).eventbridge_pipe_role
      "sqs:SendMessage" resource = false ∧
    (roleAllows (MyServerlessApplicationStack env).eventbridge_pipe_role
        action resource = true →
      ((action = "sqs:ReceiveMessage" ∨ action = "sqs:DeleteMessage" ∨
        action = "sqs:GetQueueAttributes") ∧ resource = "sitp-cdk-queue") ∨
      (action = "events:PutEvents" ∧ resource = "sitp-cdk-bus")) := by
  refine ⟨rfl, by simp [roleAllows, MyServerlessApplicationStack],
    by simp [roleAllows, MyServerlessApplicationStack],
    by simp [roleAllows, MyServerlessApplicationStack],
    by simp [roleAllows, MyServerlessApplicationStack], ?_, ?_⟩
  · simp [roleAllows, MyServerlessApplicationStack]
  · intro h
    simp only [roleAllows, MyServerlessApplicationStack] at h
    simp at h
    tauto

/-- Witness for C10: the pipe role allows reading and deleting on the
Durable Queue and publishing to the Event Bus, denies sending to the
Durable Queue, and an allowed concrete pair falls under the listed
grants. -/
theorem C10_pipe_role_least_privilege_witness :
    roleAllows (MyServerlessApplicationStack
        { account := "111122223333", region := "eu-west-1" }).eventbridge_pipe_role
      "sqs:SendMessage" "sitp-cdk-queue" = false ∧
    (((("sqs:ReceiveMessage" : String) = "sqs:ReceiveMessage" ∨
        ("sqs:ReceiveMessage" : String) = "sqs:DeleteMessage" ∨
        ("sqs:ReceiveMessage" : String) = "sqs:GetQueueAttributes") ∧
       ("sitp-cdk-queue" : String) = "sitp-cdk-queue") ∨
      (("sqs:ReceiveMessage" : String) = "events:PutEvents" ∧
       ("sitp-cdk-queue" : String) = "sitp-cdk-bus")) := by
  have h := C10_pipe_role_least_privilege
    { account := "111122223333", region := "eu-west-1" }
    "sqs:ReceiveMessage" "sitp-cdk-queue"
  exact ⟨(C10_pipe_role_least_privilege
      { account := "111122223333", region := "eu-west-1" }
      "sqs:SendMessage" "sitp-cdk-queue").2.2.2.2.2.1,
    h.2.2.2.2.2.2 (by decide)⟩

end SITP
